import Mathlib

/-!
Shallow embedding of the `ai-service` component of the ticket-management
repository, and proofs about it.

Conventions used throughout:
* Python floats are modelled as rationals (`ℚ`); timestamps (`time.time()`,
  `datetime`) are rationals holding seconds.
* Python `dict` values keyed by strings are association lists
  (`List (String × _)`) with last-write-wins update.
* Fallible calls (Redis, Gemini, the ML model) are modelled by explicit
  outcome types; `None` results and raised exceptions are separate
  constructors where the code distinguishes them.
* Where Python would raise `ZeroDivisionError`, `ℚ` division returns 0; the
  theorems below never depend on that value.
-/

namespace TicketMgmt

/-! ## `cache/mock_cache.py` — MockCache -/

/-- Python truthiness of an optional number: `None` and `0` are falsy,
every other number is truthy. -/
def pyTruthy (o : Option ℚ) : Option ℚ :=
  match o with
  | none => none
  | some v => if v = 0 then none else some v

/-- The chain `expire or ttl or default` from `MockCache.set`. -/
def expiryChoice (expire ttl : Option ℚ) (dflt : ℚ) : ℚ :=
  (((pyTruthy expire).orElse fun _ => pyTruthy ttl)).getD dflt

/-- `self.ttl = 3600` set in `MockCache.__init__`. -/
def mockDefaultTTL : ℚ := 3600

/-- One entry of `MockCache._cache`: `{'value': ..., 'expires_at': ...}`. -/
structure CacheEntry (V : Type) where
  value : V
  expires_at : ℚ
deriving Repr, DecidableEq

/-- `MockCache._cache`: a string-keyed dict, as an association list whose
head is the most recent write for its key. -/
def MockCacheState (V : Type) : Type := List (String × CacheEntry V)

/-- Dict lookup `self._cache[key]` (with the `key in self._cache` guard). -/
def cacheLookup {V : Type} (c : MockCacheState V) (k : String) : Option (CacheEntry V) :=
  (c.find? fun p => decide (p.1 = k)).map Prod.snd

/-- Dict removal `del self._cache[key]`. -/
def cacheErase {V : Type} (c : MockCacheState V) (k : String) : MockCacheState V :=
  c.filter fun p => decide (p.1 ≠ k)

/-- `MockCache.get(key)` evaluated at wall-clock time `now`:
returns the live value, or `None`, deleting the entry when it has expired. -/
def mockGet {V : Type} (c : MockCacheState V) (k : String) (now : ℚ) :
    Option V × MockCacheState V :=
  match cacheLookup c k with
  | some e => if now < e.expires_at then (some e.value, c) else (none, cacheErase c k)
  | none => (none, c)

/-- `MockCache.set(key, value, ttl, expire)` evaluated at wall-clock time
`now`: stores `{'value': value, 'expires_at': now + (expire or ttl or self.ttl)}`. -/
def mockSet {V : Type} (c : MockCacheState V) (k : String) (v : V)
    (ttl expire : Option ℚ) (now : ℚ) : Bool × MockCacheState V :=
  (true, (k, ⟨v, now + expiryChoice expire ttl mockDefaultTTL⟩) :: cacheErase c k)

/-- `MockCache.delete(key)`. -/
def mockDelete {V : Type} (c : MockCacheState V) (k : String) :
    Bool × MockCacheState V :=
  (true, cacheErase c k)

/-- `MockCache.increment(key, amount, ttl)` at time `now`:
`get` (Python `or 0`), add, then `set`. -/
def mockIncrement (c : MockCacheState ℚ) (k : String) (amount : ℚ)
    (ttl : Option ℚ) (now : ℚ) : Option ℚ × MockCacheState ℚ :=
  let g := mockGet c k now
  let newValue := g.1.getD 0 + amount
  (some newValue, (mockSet g.2 k newValue ttl none now).2)

/-- An entry for `k` is present and unexpired at time `now`. -/
def liveAt {V : Type} (c : MockCacheState V) (k : String) (now : ℚ) : Prop :=
  ∃ e, cacheLookup c k = some e ∧ now < e.expires_at

/-- The public operations of `MockCache` that touch `_cache`
(`increment` is the composition of `get` and `set`, handled separately). -/
inductive CacheOp (V : Type) where
  | get (k : String) (now : ℚ)
  | set (k : String) (v : V) (ttl expire : Option ℚ) (now : ℚ)
  | del (k : String)
deriving DecidableEq

/-- The state after running one operation. -/
def applyOp {V : Type} (c : MockCacheState V) : CacheOp V → MockCacheState V
  | .get k now => (mockGet c k now).2
  | .set k v ttl expire now => (mockSet c k v ttl expire now).2
  | .del k => (mockDelete c k).2

/-- The wall-clock time at which an operation runs (`delete` reads no clock). -/
def opTime {V : Type} : CacheOp V → ℚ
  | .get _ now => now
  | .set _ _ _ _ now => now
  | .del _ => 0

/-! ## `middleware/rate_limiter.py` — RateLimiter -/

/-- The `rate_limit_info` dict built by `RateLimiter.is_allowed`
(`current_count` is absent on the Redis-unavailable and error paths). -/
structure RateLimitInfo where
  requests_remaining : ℤ
  reset_time : ℤ
  limit : ℤ
  current_count : Option ℤ
deriving Repr, DecidableEq

/-- Outcome of `await redis_cache.increment(key, 1, self.window_seconds)`:
either it returned (possibly `None`, when Redis is unavailable) or it raised. -/
inductive IncrementOutcome where
  | ok (count : Option ℤ)
  | exc
deriving Repr, DecidableEq

/-- `RateLimiter.is_allowed` as a function of the increment outcome. -/
def isAllowed (requests_per_window window_seconds : ℤ)
    (current_time : ℤ) (outcome : IncrementOutcome) : Bool × RateLimitInfo :=
  let window_start := current_time - current_time % window_seconds
  match outcome with
  | .exc =>
      (true, ⟨requests_per_window - 1, window_start + window_seconds,
              requests_per_window, none⟩)
  | .ok none =>
      (true, ⟨requests_per_window - 1, window_start + window_seconds,
              requests_per_window, none⟩)
  | .ok (some current_count) =>
      (decide (current_count ≤ requests_per_window),
       ⟨max 0 (requests_per_window - current_count),
        window_start + window_seconds, requests_per_window, some current_count⟩)

/-! ## `services/sla_prediction_service.py` — risk levels -/

/-- `SLARiskLevel` from `models/sla_models.py`. -/
inductive SLARiskLevel where
  | low
  | medium
  | high
  | critical
deriving Repr, DecidableEq

/-- `self.risk_thresholds` from `SLAPredictionService.__init__`. -/
def riskThreshold : SLARiskLevel → ℚ
  | .low => 3 / 10
  | .medium => 6 / 10
  | .high => 8 / 10
  | .critical => 9 / 10

/-- `SLAPredictionService._get_risk_level`. -/
def getRiskLevel (breach_probability : ℚ) : SLARiskLevel :=
  if riskThreshold .critical ≤ breach_probability then .critical
  else if riskThreshold .high ≤ breach_probability then .high
  else if riskThreshold .medium ≤ breach_probability then .medium
  else .low

/-- The ordering LOW < MEDIUM < HIGH < CRITICAL, as a rank. -/
def riskRank : SLARiskLevel → ℕ
  | .low => 0
  | .medium => 1
  | .high => 2
  | .critical => 3

/-! ## `services/triage_service.py` — cache key -/

/-- `TicketTriageRequest` from `models/ticket_models.py`
(timestamps as rational epoch seconds). -/
structure TicketTriageRequest where
  ticket_id : String
  title : String
  description : String
  customer_id : String
  customer_tier : Option String
  reported_by : Option String
  affected_systems : List String
  error_messages : List String
  attachments : List String
  created_at : Option ℚ
deriving Repr, DecidableEq

/-- Python `f"{x}"` on an `Optional[str]`: `None` prints as `"None"`. -/
def pyStrOpt (o : Option String) : String := o.getD "None"

/-- The string hashed by `TicketTriageService._generate_cache_key`:
`f"{request.title}|{request.description}|{request.customer_tier}"`. -/
def cacheKeyContent (r : TicketTriageRequest) : String :=
  r.title ++ "|" ++ r.description ++ "|" ++ pyStrOpt r.customer_tier

/-- `TicketTriageService._generate_cache_key`, parameterised by the MD5 hex
digest function (any fixed function of the content string). -/
def generateCacheKey (md5hex : String → String) (r : TicketTriageRequest) : String :=
  "triage:" ++ md5hex (cacheKeyContent r)

/-! ## `services/triage_service.py` — classification -/

/-- Python `sub in s` on strings: substring test. -/
def strContains (s sub : String) : Bool :=
  decide (sub.toList <:+: s.toList)

/-- `f"{request.title} {request.description}".lower()`. -/
def lowerText (req : TicketTriageRequest) : String :=
  (req.title ++ " " ++ req.description).toLower

/-- `self.category_keywords` from `_build_category_keywords`, in dict
insertion order (keyed by the category's string value). -/
def categoryKeywordTable : List (String × List String) :=
  [("hardware",
    ["computer", "laptop", "desktop", "server", "hard drive", "memory", "ram",
     "cpu", "motherboard", "power supply", "monitor", "keyboard", "mouse",
     "hardware failure", "blue screen", "bsod", "overheating", "fan noise"]),
   ("software",
    ["application", "program", "software", "install", "update", "patch",
     "license", "crash", "error message", "bug", "feature request",
     "office", "excel", "word", "outlook", "adobe", "browser"]),
   ("network",
    ["internet", "wifi", "ethernet", "connection", "network", "router",
     "switch", "firewall", "vpn", "dns", "dhcp", "ip address",
     "bandwidth", "slow connection", "timeout", "ping", "latency"]),
   ("security",
    ["virus", "malware", "antivirus", "security", "breach", "hack",
     "phishing", "spam", "suspicious", "unauthorized", "password",
     "encryption", "certificate", "ssl", "firewall rule"]),
   ("email",
    ["email", "outlook", "exchange", "smtp", "imap", "pop3",
     "mail server", "mailbox", "attachment", "spam filter",
     "email delivery", "bounce", "undeliverable"]),
   ("backup",
    ["backup", "restore", "recovery", "data loss", "file recovery",
     "backup failure", "tape", "cloud backup", "snapshot",
     "disaster recovery", "archive"]),
   ("printer",
    ["printer", "print", "printing", "toner", "ink", "paper jam",
     "print queue", "driver", "scanner", "fax", "multifunction"]),
   ("phone",
    ["phone", "voip", "pbx", "extension", "voicemail", "call",
     "dial tone", "conference", "transfer", "hold music"]),
   ("access",
    ["access", "login", "password", "account", "permissions",
     "locked out", "reset", "authentication", "authorization",
     "active directory", "user account", "group membership"])]

/-- `self.category_keywords.get(TicketCategory(cat), [])`: the keyword list
for a category string; `"other"` (and anything absent) maps to `[]`. -/
def categoryKeywords (cat : String) : List String :=
  ((categoryKeywordTable.find? fun p => decide (p.1 = cat)).map Prod.snd).getD []

/-- `sum(1 for keyword in keywords if keyword.lower() in text)`. -/
def countMatches (keywords : List String) (text : String) : ℕ :=
  (keywords.filter fun k => strContains text k.toLower).length

/-- `TicketTriageService._calculate_keyword_confidence`. -/
def calculateKeywordConfidence (req : TicketTriageRequest)
    (predicted_category : String) : ℚ :=
  let text := lowerText req
  let kws := categoryKeywords predicted_category
  let numMatches := countMatches kws text
  if kws = [] then 0
  else min (2 / 10) (((numMatches : ℚ) / (kws.length : ℚ)) * (3 / 10))

/-- The raw dict parsed from the Gemini JSON reply, with the fields
`_validate_and_enhance_ai_result` reads; a missing key and an explicit
`None`/`null` are both `none`.  (Values are assumed well-typed; a reply of
the wrong runtime type would raise inside the `try` of `_classify_with_ai`
and so take the fallback path.) -/
structure AIResultDict where
  category : Option String
  urgency : Option String
  impact : Option String
  confidence_score : Option ℚ
  reasoning : Option String
  suggested_technician_skills : Option (List String)
  estimated_resolution_time : Option ℚ
deriving Repr, DecidableEq

/-- The classification dict after defaults are filled in. -/
structure ClassificationDict where
  category : String
  urgency : String
  impact : String
  confidence_score : ℚ
  reasoning : String
  suggested_technician_skills : List String
  estimated_resolution_time : ℚ
deriving Repr, DecidableEq

/-- The `defaults` loop of `_validate_and_enhance_ai_result`. -/
def applyDefaults (r : AIResultDict) : ClassificationDict where
  category := r.category.getD "other"
  urgency := r.urgency.getD "medium"
  impact := r.impact.getD "medium"
  confidence_score := r.confidence_score.getD (1 / 2)
  reasoning := r.reasoning.getD "AI classification"
  suggested_technician_skills := r.suggested_technician_skills.getD []
  estimated_resolution_time := r.estimated_resolution_time.getD 120

/-- `valid_categories` from `_validate_and_enhance_ai_result`. -/
def validCategories : List String :=
  ["hardware", "software", "network", "security", "email", "backup",
   "printer", "phone", "access", "other"]

/-- `valid_levels` from `_validate_and_enhance_ai_result`. -/
def validLevels : List String := ["low", "medium", "high", "urgent"]

/-- Category validation: an invalid category becomes `"other"` and the
confidence is scaled by 0.8. -/
def validateCategory (d : ClassificationDict) : ClassificationDict :=
  if d.category ∈ validCategories then d
  else { d with category := "other", confidence_score := d.confidence_score * (8 / 10) }

/-- Urgency/impact validation: invalid levels become `"medium"`. -/
def validateUrgencyImpact (d : ClassificationDict) : ClassificationDict :=
  let d₁ := if d.urgency ∈ validLevels then d else { d with urgency := "medium" }
  if d₁.impact ∈ validLevels then d₁ else { d₁ with impact := "medium" }

/-- The keyword confidence boost:
`min(0.95, confidence_score + confidence_boost)`. -/
def applyKeywordBoost (req : TicketTriageRequest) (d : ClassificationDict) :
    ClassificationDict :=
  let boosted :=
    min (95 / 100) (d.confidence_score + calculateKeywordConfidence req d.category)
  { d with confidence_score := boosted }

/-- The age-based urgency escalation (`hours_old > 24` and low urgency). -/
def applyAgeEscalation (req : TicketTriageRequest) (utcnow : ℚ)
    (d : ClassificationDict) : ClassificationDict :=
  match req.created_at with
  | some created =>
      if 24 < (utcnow - created) / 3600 ∧ d.urgency = "low" then
        { d with urgency := "medium",
                 reasoning := d.reasoning ++ " (escalated due to age)" }
      else d
  | none => d

/-- `TicketTriageService._validate_and_enhance_ai_result`. -/
def validateAndEnhance (r : AIResultDict) (req : TicketTriageRequest)
    (utcnow : ℚ) : ClassificationDict :=
  applyAgeEscalation req utcnow
    (applyKeywordBoost req (validateUrgencyImpact (validateCategory (applyDefaults r))))

/-- Python `int(x)`: truncation toward zero. -/
def pyInt (x : ℚ) : ℚ :=
  if x < 0 then (⌈x⌉ : ℚ) else (⌊x⌋ : ℚ)

/-- The per-category match scores of `_fallback_classification`
(`category_scores`, in dict insertion order, only scores > 0). -/
def fallbackCategoryScores (req : TicketTriageRequest) : List (String × ℚ) :=
  categoryKeywordTable.filterMap fun p =>
    let score := countMatches p.2 (lowerText req)
    if 0 < score then some (p.1, (score : ℚ) / (p.2.length : ℚ)) else none

/-- Python `max(d, key=d.get)` over an ordered dict: the first key with the
strictly greatest value. -/
def maxByScore (l : List (String × ℚ)) : Option (String × ℚ) :=
  match l with
  | [] => none
  | x :: xs => some (xs.foldl (fun best y => if best.2 < y.2 then y else best) x)

/-- The category/confidence selection of `_fallback_classification`:
highest-scoring category with `min(0.8, score * 2)`, else
`("other", 0.3)`. -/
def fallbackCategoryConfidence (req : TicketTriageRequest) : String × ℚ :=
  match maxByScore (fallbackCategoryScores req) with
  | some (c, s) => (c, min (8 / 10) (s * 2))
  | none => ("other", 3 / 10)

/-- `urgent_keywords` from `_fallback_classification`. -/
def urgentKeywords : List String :=
  ["urgent", "critical", "down", "outage", "emergency", "asap", "immediately"]

/-- `skill_mapping` from `_get_skills_for_category`. -/
def skillMapping : List (String × List String) :=
  [("hardware", ["hardware_troubleshooting", "desktop_support", "server_maintenance"]),
   ("software", ["software_support", "application_troubleshooting", "user_training"]),
   ("network", ["network_administration", "cisco_networking", "firewall_management"]),
   ("security", ["cybersecurity", "incident_response", "malware_removal"]),
   ("email", ["exchange_administration", "email_troubleshooting", "office365"]),
   ("backup", ["backup_administration", "data_recovery", "disaster_recovery"]),
   ("printer", ["printer_support", "hardware_troubleshooting"]),
   ("phone", ["voip_support", "pbx_administration", "telecommunications"]),
   ("access", ["active_directory", "user_management", "authentication_systems"]),
   ("other", ["general_support", "troubleshooting"])]

/-- `TicketTriageService._get_skills_for_category`. -/
def getSkillsForCategory (category : String) : List String :=
  ((skillMapping.find? fun p => decide (p.1 = category)).map Prod.snd).getD
    ["general_support"]

/-- `base_times` from `_fallback_classification`. -/
def baseTimes : List (String × ℚ) :=
  [("security", 60), ("hardware", 180), ("network", 120),
   ("software", 90), ("email", 60), ("other", 120)]

/-- `TicketTriageService._fallback_classification`. -/
def fallbackClassification (req : TicketTriageRequest) : ClassificationDict :=
  let text := lowerText req
  let cc := fallbackCategoryConfidence req
  let category := cc.1
  let urgencyImpact : String × String :=
    if urgentKeywords.any (fun k => strContains text k) then ("urgent", "high")
    else ("medium", "medium")
  let urgencyImpact :=
    if category = "security" then ("urgent", "high") else urgencyImpact
  let urgencyImpact :=
    if req.customer_tier = some "premium" then
      ((if urgencyImpact.1 = "low" then "medium" else urgencyImpact.1),
       (if urgencyImpact.2 = "low" then "medium" else urgencyImpact.2))
    else urgencyImpact
  let estimated_time :=
    ((baseTimes.find? fun p => decide (p.1 = category)).map Prod.snd).getD 120
  let estimated_time :=
    if urgencyImpact.1 = "urgent" then pyInt (estimated_time * (1 / 2))
    else if urgencyImpact.1 = "low" then pyInt (estimated_time * (3 / 2))
    else estimated_time
  { category := category
    urgency := urgencyImpact.1
    impact := urgencyImpact.2
    confidence_score := cc.2
    reasoning := "Rule-based classification using keyword analysis"
    suggested_technician_skills := getSkillsForCategory category
    estimated_resolution_time := estimated_time }

/-- Outcome of `gemini_client.classify_ticket` inside `_classify_with_ai`:
a truthy parsed dict, a falsy reply (`None` or an empty dict), or a raised
exception. -/
inductive GeminiOutcome where
  | ok (r : Option AIResultDict)
  | exc
deriving DecidableEq

/-- `TicketTriageService._classify_with_ai` as a function of the Gemini
outcome. -/
def classifyWithAI (g : GeminiOutcome) (req : TicketTriageRequest)
    (utcnow : ℚ) : ClassificationDict :=
  match g with
  | .ok (some r) => validateAndEnhance r req utcnow
  | .ok none => fallbackClassification req
  | .exc => fallbackClassification req

/-! ## `main.py` — the `/ai/triage` endpoint -/

/-- The dict returned by `_emergency_triage_fallback` in `main.py`. -/
structure EmergencyDict where
  category : String
  priority : String
  urgency : String
  impact : String
  confidence_score : ℚ
  reasoning : String
  suggested_technician_skills : List String
  estimated_resolution_time : ℚ
  fallback_mode : Bool
  requires_manual_review : Bool
deriving Repr, DecidableEq

/-- `_emergency_triage_fallback` from `main.py`. -/
def emergencyTriageFallback (req : TicketTriageRequest) : EmergencyDict :=
  let text := (req.title ++ " " ++ req.description).toLower
  let hit := fun ws : List String => ws.any fun w => strContains text w
  let category :=
    if hit ["password", "login", "access", "account"] then "access"
    else if hit ["email", "outlook", "mail"] then "email"
    else if hit ["network", "internet", "connection", "wifi"] then "network"
    else if hit ["computer", "laptop", "hardware", "screen"] then "hardware"
    else if hit ["software", "application", "program", "install"] then "software"
    else if hit ["virus", "security", "malware", "hack"] then "security"
    else "other"
  let priority :=
    if hit ["urgent", "critical", "emergency", "down", "outage"] then "high"
    else if hit ["minor", "low", "when possible"] then "low"
    else "medium"
  { category := category
    priority := priority
    urgency := "medium"
    impact := "medium"
    confidence_score := 4 / 10
    reasoning := "Emergency fallback classification using keyword analysis"
    suggested_technician_skills := ["general_support"]
    estimated_resolution_time := 120
    fallback_mode := true
    requires_manual_review := true }

/-- The `TriageResponse` model (`result` is the success-path dict `ρ` or
the emergency-fallback dict). -/
structure TriageResponseM (ρ : Type) where
  success : Bool
  result : Option (ρ ⊕ EmergencyDict)
  error : Option String
  processing_time_ms : ℤ
  cached : Bool

/-- How the `try` block of the `/ai/triage` endpoint ended: normally (with
a result dict and cached flag), with a `ValueError`, or with any other
exception. -/
inductive TriageBodyOutcome (ρ : Type) where
  | ok (result : ρ) (cached : Bool)
  | valueError (msg : String)
  | exc

/-- The `/ai/triage` endpoint `triage_ticket` in `main.py`, as a function
of how its `try` block ended.  `fallbackRaises` models the inner bare
`except` around `_emergency_triage_fallback`.  (The success branch's
enrichment of the result dict is abstracted into `ρ`; the claims proved
below quantify only over the exception branches.) -/
def triageEndpoint {ρ : Type} (req : TicketTriageRequest)
    (body : TriageBodyOutcome ρ) (fallbackRaises : Bool) (pt : ℤ) :
    TriageResponseM ρ :=
  match body with
  | .ok r c =>
      { success := true, result := some (.inl r), error := none,
        processing_time_ms := pt, cached := c }
  | .valueError msg =>
      { success := false, result := none,
        error := some ("Invalid input: " ++ msg),
        processing_time_ms := pt, cached := false }
  | .exc =>
      if fallbackRaises then
        { success := false, result := none,
          error := some "AI service temporarily unavailable",
          processing_time_ms := pt, cached := false }
      else
        { success := true, result := some (.inr (emergencyTriageFallback req)),
          error := none, processing_time_ms := pt, cached := false }

/-! ## `services/sla_prediction_service.py` — breach probability -/

/-- `Priority` from `models/sla_models.py`. -/
inductive SLAPriority where
  | low
  | medium
  | high
  | critical
deriving Repr, DecidableEq

/-- `TicketStatus` from `models/sla_models.py` (`open'` stands for the
Python value `"open"`, a Lean keyword). -/
inductive SLATicketStatus where
  | open'
  | in_progress
  | pending_customer
  | resolved
  | closed
deriving Repr, DecidableEq

/-- The fields of `SLAPredictionRequest` that
`_rule_based_prediction` reads (timestamps as rational epoch seconds;
`current_time` is always set by the pydantic validator). -/
structure SLAPredictionRequestM where
  ticket_id : String
  priority : SLAPriority
  status : SLATicketStatus
  created_at : ℚ
  sla_deadline : ℚ
  current_time : ℚ
  escalation_level : Option ℕ
  technician_current_workload : Option ℚ
deriving Repr, DecidableEq

/-- `priority_multipliers` from `_rule_based_prediction`. -/
def priorityMultiplier : SLAPriority → ℚ
  | .low => 8 / 10
  | .medium => 1
  | .high => 12 / 10
  | .critical => 14 / 10

/-- `status_multipliers` from `_rule_based_prediction`. -/
def statusMultiplier : SLATicketStatus → ℚ
  | .open' => 13 / 10
  | .in_progress => 1
  | .pending_customer => 7 / 10
  | .resolved => 0
  | .closed => 0

/-- `SLAPredictionService._rule_based_prediction`, returning
`(breach_probability, confidence)`.  The non-rational exponentiation
`progress_ratio ** 1.5` is abstracted as a parameter `pow15`; every
theorem below holds for all such functions. -/
def ruleBasedPrediction (pow15 : ℚ → ℚ) (req : SLAPredictionRequestM) : ℚ × ℚ :=
  let total_time := req.sla_deadline - req.created_at
  let elapsed_time := req.current_time - req.created_at
  let progress_ratio := if 0 < total_time then elapsed_time / total_time else 1
  let base_risk := min 1 (pow15 progress_ratio)
  let base_risk := base_risk * priorityMultiplier req.priority
  let base_risk := base_risk * statusMultiplier req.status
  let base_risk :=
    match req.escalation_level with
    | some lvl => if 0 < lvl then base_risk * (1 + (lvl : ℚ) * (2 / 10)) else base_risk
    | none => base_risk
  let base_risk :=
    match req.technician_current_workload with
    | some w => if 8 / 10 < w then base_risk * (13 / 10) else base_risk
    | none => base_risk
  (max 0 (min 1 base_risk), 6 / 10)

/-- `SLAPredictionService._ml_prediction`: the raw regressor output is
clipped into [0, 1]; `none` models the inner `except` (prediction failed),
which returns `(0.5, 0.3)`. -/
def mlPrediction (raw : Option ℚ) : ℚ × ℚ :=
  match raw with
  | some prediction => (max 0 (min 1 prediction), 8 / 10)
  | none => (1 / 2, 3 / 10)

/-- How `predict_sla_breach` computes its probability: the untrained /
model-absent path (rule-based), the trained ML path (with the raw model
output, `none` when `predict` raises), or the outer `except Exception`. -/
inductive SLAPredictOutcome where
  | untrained
  | trained (raw : Option ℚ)
  | topError
deriving DecidableEq

/-- The `breach_probability` returned by
`SLAPredictionService.predict_sla_breach` on each path (the outer error
path returns the conservative constant 0.7). -/
def predictBreachProbability (pow15 : ℚ → ℚ) (req : SLAPredictionRequestM) :
    SLAPredictOutcome → ℚ
  | .untrained => (ruleBasedPrediction pow15 req).1
  | .trained raw => (mlPrediction raw).1
  | .topError => 7 / 10

/-! ## `services/workload_optimizer.py` — assignment optimization -/

/-- `TechnicianProfile` (floats as ℚ). -/
structure TechnicianProfile where
  technician_id : String
  name : String
  skills : List String
  skill_levels : List (String × ℚ)
  current_workload : ℚ
  max_capacity : ℚ
  experience_level : ℚ
  performance_rating : ℚ
  availability_hours : ℚ
  preferred_ticket_types : List String
  burnout_risk_score : ℚ
  learning_goals : List String
  collaboration_score : ℚ
  recent_performance_trend : String
deriving Repr, DecidableEq

/-- `TicketProfile` (`sla_deadline` as rational epoch seconds). -/
structure TicketProfile where
  ticket_id : String
  title : String
  category : String
  priority : String
  required_skills : List String
  complexity_score : ℚ
  estimated_time : ℚ
  sla_deadline : ℚ
  customer_tier : String
  urgency_multiplier : ℚ
  learning_opportunity : Bool
  collaboration_required : Bool
deriving Repr, DecidableEq

/-- An entry of an `alternative_technicians` list. -/
structure AltCandidate where
  technician_id : String
  score : ℚ
  reasoning : String
deriving Repr, DecidableEq

/-- `AssignmentRecommendation`. -/
structure AssignmentRecommendation where
  ticket_id : String
  technician_id : String
  confidence_score : ℚ
  reasoning : String
  expected_completion_time : ℚ
  skill_match_score : ℚ
  workload_impact : ℚ
  sla_risk_score : ℚ
  learning_value : ℚ
  alternative_technicians : List AltCandidate
deriving Repr, DecidableEq

/-- `self.optimization_weights`, one field per `OptimizationGoal`. -/
structure OptimizationWeights where
  efficiency : ℚ
  balance : ℚ
  sla_compliance : ℚ
  skill_development : ℚ
  wellness : ℚ
deriving Repr, DecidableEq

/-- The weights set in `WorkloadOptimizer.__init__`. -/
def defaultWeights : OptimizationWeights :=
  ⟨3 / 10, 25 / 100, 25 / 100, 1 / 10, 1 / 10⟩

/-- `WorkloadOptimizer._update_optimization_weights` (empty goal list keeps
the defaults). -/
def updateOptimizationWeights (goals : List String) : OptimizationWeights :=
  if goals = [] then defaultWeights
  else
    let base := 1 / (goals.length : ℚ)
    let w := fun v : String => if v ∈ goals then base else (1 / 10) * base
    ⟨w "efficiency", w "balance", w "sla_compliance", w "skill_development",
      w "wellness"⟩

/-- `dict.get(k, dflt)` on a string-keyed number dict. -/
def pyDictGet (m : List (String × ℚ)) (k : String) (dflt : ℚ) : ℚ :=
  ((m.find? fun p => decide (p.1 = k)).map Prod.snd).getD dflt

/-- `d[k] = v` on a string-keyed number dict. -/
def pyDictSet (m : List (String × ℚ)) (k : String) (v : ℚ) : List (String × ℚ) :=
  (k, v) :: m.filter fun p => decide (p.1 ≠ k)

/-- Python `int(x)` as an integer (truncation toward zero). -/
def pyIntZ (x : ℚ) : ℤ :=
  if x < 0 then ⌈x⌉ else ⌊x⌋

/-- `WorkloadOptimizer._calculate_skill_match` (Python sets modelled by
deduplicated lists). -/
def calculateSkillMatch (tech : TechnicianProfile) (ticket : TicketProfile) : ℚ :=
  if ticket.required_skills = [] then 1 / 2
  else
    let tech_skills := tech.skills.dedup
    let required_skills := ticket.required_skills.dedup
    let overlap := tech_skills.filter fun s => decide (s ∈ required_skills)
    let basic_score := (overlap.length : ℚ) / (required_skills.length : ℚ)
    if overlap ≠ [] ∧ tech.skill_levels ≠ [] then
      let skill_level_bonus :=
        ((overlap.map fun s => pyDictGet tech.skill_levels s 5).sum)
          / ((overlap.length : ℚ) * 10)
      min 1 (basic_score + skill_level_bonus)
    else basic_score

/-- `WorkloadOptimizer._calculate_workload_score`. -/
def calculateWorkloadScore (tech : TechnicianProfile)
    (additional_workload : ℚ) : ℚ :=
  let total_workload := tech.current_workload + additional_workload / 60
  let utilization := total_workload / tech.max_capacity
  if utilization < 1 / 2 then 7 / 10
  else if utilization < 8 / 10 then 1
  else if utilization < 9 / 10 then 6 / 10
  else 2 / 10

/-- `WorkloadOptimizer._calculate_availability_score`. -/
def calculateAvailabilityScore (tech : TechnicianProfile)
    (ticket : TicketProfile) : ℚ :=
  let base_score := min 1 (tech.availability_hours / 8)
  let base_score :=
    if ticket.category ∈ tech.preferred_ticket_types then base_score * (11 / 10)
    else base_score
  min 1 base_score

/-- `WorkloadOptimizer._calculate_workload_impact`. -/
def calculateWorkloadImpact (tech : TechnicianProfile)
    (ticket : TicketProfile) : ℚ :=
  min 1 ((tech.current_workload + ticket.estimated_time / 60) / tech.max_capacity)

/-- `WorkloadOptimizer._calculate_sla_risk` at wall-clock time `now`. -/
def calculateSlaRisk (now : ℚ) (tech : TechnicianProfile)
    (ticket : TicketProfile) : ℚ :=
  let time_remaining := (ticket.sla_deadline - now) / 3600
  let time_needed := ticket.estimated_time / 60
  if time_remaining ≤ 0 then 1
  else
    let time_pressure := time_needed / time_remaining
    let reliability_factor := tech.performance_rating / 5
    min 1 (max 0 (time_pressure * (2 - reliability_factor)))

/-- `WorkloadOptimizer._calculate_learning_value`. -/
def calculateLearningValue (tech : TechnicianProfile)
    (ticket : TicketProfile) : ℚ :=
  if ¬ ticket.learning_opportunity then 0
  else
    let learning_overlap :=
      ticket.required_skills.dedup.filter fun s => decide (s ∈ tech.learning_goals.dedup)
    if learning_overlap ≠ [] then
      (learning_overlap.length : ℚ) / ((max 1 tech.learning_goals.length : ℕ) : ℚ)
    else
      let new_skills :=
        ticket.required_skills.dedup.filter fun s => decide (s ∉ tech.skills.dedup)
      if new_skills ≠ [] ∧ new_skills.length ≤ 2 then 3 / 10 else 0

/-- `WorkloadOptimizer._generate_assignment_reasoning` (the `score`
parameter is unused, as in the source). -/
def generateAssignmentReasoning (tech : TechnicianProfile)
    (ticket : TicketProfile) (_score : ℚ) : String :=
  let skill_match := calculateSkillMatch tech ticket
  let reasons : List String :=
    if 8 / 10 < skill_match then
      ["Excellent skill match (" ++ toString (pyIntZ (skill_match * 100)) ++ "%)"]
    else if 6 / 10 < skill_match then
      ["Good skill match (" ++ toString (pyIntZ (skill_match * 100)) ++ "%)"]
    else []
  let utilization := tech.current_workload / tech.max_capacity
  let reasons := reasons ++
    (if utilization < 7 / 10 then ["Available capacity"]
     else if utilization < 85 / 100 then ["Manageable workload"] else [])
  let reasons := reasons ++
    (if 7 < tech.experience_level then ["High experience level"] else [])
  let reasons := reasons ++
    (if ticket.category ∈ tech.preferred_ticket_types then ["Matches preferences"]
     else [])
  let reasons := if reasons = [] then ["Best available option"] else reasons
  String.intercalate ", " reasons

/-- `priority_map` from `WorkloadOptimizer._priority_score`. -/
def priorityMap : List (String × ℤ) :=
  [("low", 1), ("medium", 2), ("high", 3), ("critical", 4), ("urgent", 4)]

/-- `WorkloadOptimizer._priority_score`. -/
def priorityScore (priority : String) : ℤ :=
  ((priorityMap.find? fun p => decide (p.1 = priority.toLower)).map Prod.snd).getD 2

/-- The ascending sort key of `_generate_initial_assignments`:
`(priority_score, seconds to SLA deadline)`, compared lexicographically. -/
def ticketSortLE (now : ℚ) (a b : TicketProfile) : Bool :=
  decide (priorityScore a.priority < priorityScore b.priority ∨
    (priorityScore a.priority = priorityScore b.priority ∧
      a.sla_deadline - now ≤ b.sla_deadline - now))

/-- The `tech_workloads` accumulation at the top of
`_find_best_technician`. -/
def accumWorkloads (assignments : List AssignmentRecommendation) :
    List (String × ℚ) :=
  assignments.foldl
    (fun m a =>
      pyDictSet m a.technician_id
        (pyDictGet m a.technician_id 0 + a.expected_completion_time))
    []

/-- The composite score computed for one technician inside the
`for tech in technicians` loop of `_find_best_technician`. -/
def compositeScore (w : OptimizationWeights) (tech_workloads : List (String × ℚ))
    (ticket : TicketProfile) (tech : TechnicianProfile) : ℚ :=
  let skill_score := calculateSkillMatch tech ticket
  let workload_score :=
    calculateWorkloadScore tech (pyDictGet tech_workloads tech.technician_id 0)
  let experience_score := min 1 (tech.experience_level / 10)
  let availability_score := calculateAvailabilityScore tech ticket
  let composite := skill_score * (4 / 10) + workload_score * (3 / 10)
    + experience_score * (2 / 10) + availability_score * (1 / 10)
  let composite :=
    if 2 / 10 < w.wellness then composite * (1 - tech.burnout_risk_score * (3 / 10))
    else composite
  if 2 / 10 < w.skill_development ∧ ticket.learning_opportunity
      ∧ ticket.required_skills.any (fun s => decide (s ∈ tech.learning_goals)) then
    composite * (12 / 10)
  else composite

/-- One iteration of the `for tech in technicians` loop: the state is
`(best_tech, best_score, alternatives)`, starting from `(None, -1, [])`. -/
def findBestStep (w : OptimizationWeights) (tech_workloads : List (String × ℚ))
    (ticket : TicketProfile)
    (st : Option TechnicianProfile × ℚ × List AltCandidate)
    (tech : TechnicianProfile) :
    Option TechnicianProfile × ℚ × List AltCandidate :=
  let composite := compositeScore w tech_workloads ticket tech
  if st.2.1 < composite then
    let alternatives :=
      match st.1 with
      | some bt => st.2.2 ++ [⟨bt.technician_id, st.2.1, "Previous best candidate"⟩]
      | none => st.2.2
    (some tech, composite, alternatives)
  else if 6 / 10 < composite then
    (st.1, st.2.1,
      st.2.2 ++ [⟨tech.technician_id, composite, "Strong alternative candidate"⟩])
  else st

/-- `WorkloadOptimizer._find_best_technician` at wall-clock time `now`. -/
def findBestTechnician (w : OptimizationWeights) (now : ℚ)
    (ticket : TicketProfile) (technicians : List TechnicianProfile)
    (current_assignments : List AssignmentRecommendation) :
    Option AssignmentRecommendation :=
  let tech_workloads := accumWorkloads current_assignments
  let st := technicians.foldl (findBestStep w tech_workloads ticket) (none, -1, [])
  match st.1 with
  | some best_tech =>
      some { ticket_id := ticket.ticket_id
             technician_id := best_tech.technician_id
             confidence_score := min (95 / 100) st.2.1
             reasoning := generateAssignmentReasoning best_tech ticket st.2.1
             expected_completion_time := ticket.estimated_time
             skill_match_score := calculateSkillMatch best_tech ticket
             workload_impact := calculateWorkloadImpact best_tech ticket
             sla_risk_score := calculateSlaRisk now best_tech ticket
             learning_value := calculateLearningValue best_tech ticket
             alternative_technicians := st.2.2.take 3 }
  | none => none

/-- One iteration of `_generate_initial_assignments`: the assignment (ifany)
for the next sorted ticket is appended. -/
def assignStep (w : OptimizationWeights) (now : ℚ)
    (technicians : List TechnicianProfile)
    (assignments : List AssignmentRecommendation) (ticket : TicketProfile) :
    List AssignmentRecommendation :=
  match findBestTechnician w now ticket technicians assignments with
  | some a => assignments ++ [a]
  | none => assignments

/-- `WorkloadOptimizer._generate_initial_assignments` (Python `sorted` is
stable ascending; so is `List.mergeSort`). -/
def generateInitialAssignments (w : OptimizationWeights) (now : ℚ)
    (technicians : List TechnicianProfile) (tickets : List TicketProfile) :
    List AssignmentRecommendation :=
  (tickets.mergeSort (ticketSortLE now)).foldl (assignStep w now technicians) []

/-- The output dict built by `_multi_objective_optimization` for each
initial assignment. -/
structure OptimizedAssignment where
  ticket_id : String
  technician_id : String
  confidence_score : ℚ
  reasoning : String
  estimated_completion_time : ℚ
  skill_match_score : ℚ
  workload_impact : ℚ
  sla_risk_score : ℚ
  learning_value : ℚ
  alternative_technicians : List AltCandidate
  optimization_applied : Bool
  assignment_type : String
deriving Repr, DecidableEq

/-- `WorkloadOptimizer._multi_objective_optimization`: reformats the
initial assignments one-for-one. -/
def multiObjectiveOptimization (initial : List AssignmentRecommendation) :
    List OptimizedAssignment :=
  initial.map fun a =>
    { ticket_id := a.ticket_id
      technician_id := a.technician_id
      confidence_score := a.confidence_score
      reasoning := a.reasoning
      estimated_completion_time := a.expected_completion_time
      skill_match_score := a.skill_match_score
      workload_impact := a.workload_impact
      sla_risk_score := a.sla_risk_score
      learning_value := a.learning_value
      alternative_technicians := a.alternative_technicians
      optimization_applied := true
      assignment_type := "ai_optimized" }

/-- The `"assignments"` field of `WorkloadOptimizer.optimize_assignments`
(profile creation from the input dicts preserves `technician_id` and
`ticket_id` verbatim; the analysis/metrics fields of the returned dict do
not alter the assignment list). -/
def optimizeAssignments (goals : List String) (now : ℚ)
    (technicians : List TechnicianProfile) (pending_tickets : List TicketProfile) :
    List OptimizedAssignment :=
  multiObjectiveOptimization
    (generateInitialAssignments (updateOptimizationWeights goals) now
      technicians pending_tickets)

/-! ## Helper lemmas on the cache dict -/

theorem cacheLookup_cons_self {V : Type} (c : MockCacheState V) (k : String)
    (e : CacheEntry V) : cacheLookup ((k, e) :: c) k = some e := by
  simp [cacheLookup, List.find?_cons_of_pos]

theorem cacheLookup_cons_ne {V : Type} (c : MockCacheState V) (k k' : String)
    (e : CacheEntry V) (h : k' ≠ k) :
    cacheLookup ((k', e) :: c) k = cacheLookup c k := by
  simp [cacheLookup, List.find?_cons_of_neg, h]

theorem cacheErase_cons_eq {V : Type} (t : MockCacheState V) (pk k : String)
    (pe : CacheEntry V) (h : pk = k) :
    cacheErase ((pk, pe) :: t) k = cacheErase t k := by
  simp [cacheErase, List.filter_cons, h]

theorem cacheErase_cons_ne {V : Type} (t : MockCacheState V) (pk k : String)
    (pe : CacheEntry V) (h : pk ≠ k) :
    cacheErase ((pk, pe) :: t) k = (pk, pe) :: cacheErase t k := by
  simp [cacheErase, List.filter_cons, h]

theorem cacheLookup_erase_self {V : Type} (c : MockCacheState V) (k : String) :
    cacheLookup (cacheErase c k) k = none := by
  induction c with
  | nil => rfl
  | cons p t ih =>
      rcases p with ⟨pk, pe⟩
      by_cases hp : pk = k
      · rw [cacheErase_cons_eq t pk k pe hp]
        exact ih
      · rw [cacheErase_cons_ne t pk k pe hp, cacheLookup_cons_ne _ _ _ _ hp]
        exact ih

theorem cacheLookup_erase_ne {V : Type} (c : MockCacheState V) (k k' : String)
    (h : k ≠ k') : cacheLookup (cacheErase c k') k = cacheLookup c k := by
  induction c with
  | nil => rfl
  | cons p t ih =>
      rcases p with ⟨pk, pe⟩
      by_cases hp : pk = k'
      · have hpk : pk ≠ k := by
          rintro rfl
          exact h hp
        rw [cacheErase_cons_eq t pk k' pe hp, ih, cacheLookup_cons_ne t k pk pe hpk]
      · rw [cacheErase_cons_ne t pk k' pe hp]
        by_cases hk : pk = k
        · subst hk
          rw [cacheLookup_cons_self, cacheLookup_cons_self]
        · rw [cacheLookup_cons_ne _ _ _ _ hk, cacheLookup_cons_ne _ _ _ _ hk, ih]

theorem liveAt_isSome {V : Type} {c : MockCacheState V} {k : String} {now : ℚ}
    (h : liveAt c k now) : (cacheLookup c k).isSome := by
  obtain ⟨e, he, _⟩ := h
  simp [he]

/-! ## Claim theorems: MockCache -/

/-- C1 counterexample: the claim's final conjunct — "no other operation
removes a live entry" — is false: `MockCache.delete` removes an entry that
is still live.  Concretely, after `set("a", 1, ttl=100)` at time 0, a
`get("a")` at time 1 still returns the value (the entry is live), yet
`delete("a")` removes it, so a `get("a")` at the same time afterwards
returns `None`. -/
theorem mockCache_delete_removes_live_entry :
    (mockGet (mockSet ([] : MockCacheState ℚ) "a" 1 (some 100) none 0).2 "a" 1).1
      = some 1 ∧
    (mockGet (mockDelete (mockSet ([] : MockCacheState ℚ) "a" 1 (some 100) none 0).2
        "a").2 "a" 1).1 = none := by
  have h100 : (100 : ℚ) ≠ 0 := by norm_num
  have hset : (mockSet ([] : MockCacheState ℚ) "a" 1 (some 100) none 0).2
      = [("a", ⟨1, 100⟩)] := by
    simp [mockSet, expiryChoice, pyTruthy, cacheErase, h100]
  rw [hset]
  constructor
  · have hl : cacheLookup [("a", (⟨1, 100⟩ : CacheEntry ℚ))] "a"
        = some ⟨1, 100⟩ := cacheLookup_cons_self [] "a" _
    simp [mockGet, hl, show (1 : ℚ) < 100 from by norm_num]
  · simp [mockDelete, cacheErase, mockGet, cacheLookup]

/-- C1 (amended): after `set(k, v, t)` at time `s` with `t > 0`, a `get(k)`
strictly before `s + t` returns `v`; a `get(k)` at or after `s + t` returns
`None` and removes the entry; and no operation other than a `delete` of the
same key removes a live entry's key — after any `get`, `set`, or `delete`
of another key, the key still has an entry in the dict. -/
theorem mockCache_ttl_expiry_semantics {V : Type} (c : MockCacheState V)
    (k : String) (v : V) (t s τ₁ τ₂ : ℚ)
    (ht : 0 < t) (h1 : τ₁ < s + t) (h2 : s + t ≤ τ₂) :
    (mockGet (mockSet c k v (some t) none s).2 k τ₁).1 = some v ∧
    (mockGet (mockSet c k v (some t) none s).2 k τ₂).1 = none ∧
    cacheLookup (mockGet (mockSet c k v (some t) none s).2 k τ₂).2 k = none ∧
    (∀ (c₀ : MockCacheState V) (k₀ : String) (op : CacheOp V),
      liveAt c₀ k₀ (opTime op) → op ≠ CacheOp.del k₀ →
      (cacheLookup (applyOp c₀ op) k₀).isSome) := by
  have hset : (mockSet c k v (some t) none s).2
      = (k, ⟨v, s + t⟩) :: cacheErase c k := by
    have htne : t ≠ 0 := ne_of_gt ht
    simp [mockSet, expiryChoice, pyTruthy, htne]
  have hlook : cacheLookup (mockSet c k v (some t) none s).2 k = some ⟨v, s + t⟩ := by
    rw [hset]; exact cacheLookup_cons_self _ _ _
  refine ⟨?_, ?_, ?_, ?_⟩
  · simp [mockGet, hlook, h1]
  · simp [mockGet, hlook, not_lt.mpr h2]
  · simp [mockGet, hlook, not_lt.mpr h2, cacheLookup_erase_self]
  · intro c₀ k₀ op hlive hnotdel
    cases op with
    | get k' now =>
        simp only [applyOp, mockGet]
        cases hl : cacheLookup c₀ k' with
        | none => exact liveAt_isSome hlive
        | some e =>
            by_cases hexp : now < e.expires_at
            · simp only [hexp, if_pos]
              exact liveAt_isSome hlive
            · simp only [hexp, if_neg, not_false_eq_true]
              by_cases hkk : k₀ = k'
              · exfalso
                obtain ⟨e', he', hlt⟩ := hlive
                rw [opTime] at hlt
                rw [hkk, hl] at he'
                cases he'
                exact hexp hlt
              · rw [cacheLookup_erase_ne c₀ k₀ k' hkk]
                exact liveAt_isSome hlive
    | set k' v' ttl expire now =>
        simp only [applyOp, mockSet]
        by_cases hkk : k' = k₀
        · subst hkk
          rw [cacheLookup_cons_self]
          rfl
        · rw [cacheLookup_cons_ne _ _ _ _ hkk,
            cacheLookup_erase_ne c₀ k₀ k' (Ne.symm hkk)]
          exact liveAt_isSome hlive
    | del k' =>
        have hkk : k₀ ≠ k' := by
          intro h
          exact hnotdel (by rw [h])
        simp only [applyOp, mockDelete]
        rw [cacheLookup_erase_ne c₀ k₀ k' hkk]
        exact liveAt_isSome hlive

/-- Witness for `mockCache_ttl_expiry_semantics` at
`c = ∅`, `k = "a"`, `v = 1`, `t = 100`, `s = 0`, `τ₁ = 50`, `τ₂ = 100`. -/
theorem mockCache_ttl_expiry_semantics_witness :
    (0 : ℚ) < 100 ∧ (50 : ℚ) < 0 + 100 ∧ (0 : ℚ) + 100 ≤ 100 ∧
    (mockGet (mockSet ([] : MockCacheState ℚ) "a" 1 (some 100) none 0).2 "a" 50).1
      = some 1 :=
  ⟨by norm_num, by norm_num, by norm_num,
    (mockCache_ttl_expiry_semantics ([] : MockCacheState ℚ) "a" 1 100 0 50 100
      (by norm_num) (by norm_num) (by norm_num)).1⟩

/-- C8: `MockCache.set` with an explicit `ttl=0` (or `expire=0`) stores the
entry with the default 3600-second TTL, because `expire or ttl or self.ttl`
treats `0` as absent; in particular the stored entry is not already expired
at the write time. -/
theorem mockSet_zero_ttl_uses_default {V : Type} (c : MockCacheState V)
    (k : String) (v : V) (s : ℚ) :
    (mockSet c k v (some 0) none s).2 = (k, ⟨v, s + 3600⟩) :: cacheErase c k ∧
    (mockSet c k v none (some 0) s).2 = (k, ⟨v, s + 3600⟩) :: cacheErase c k ∧
    s < s + 3600 := by
  refine ⟨?_, ?_, by linarith⟩ <;>
    simp [mockSet, expiryChoice, pyTruthy, mockDefaultTTL]

/-! ## Claim theorems: RateLimiter -/

/-- C9: the rate limiter fails open — when `increment` returns `None`
(Redis unavailable) or raises, `is_allowed` returns `True`; a request is
rejected exactly when the counter is available and exceeds
`requests_per_window`. -/
theorem rateLimiter_fails_open (limit window t : ℤ) (outcome : IncrementOutcome) :
    ((outcome = .exc ∨ outcome = .ok none) →
      (isAllowed limit window t outcome).1 = true) ∧
    ((isAllowed limit window t outcome).1 = false ↔
      ∃ c, outcome = .ok (some c) ∧ limit < c) := by
  cases outcome with
  | exc => simp [isAllowed]
  | ok o =>
      cases o with
      | none => simp [isAllowed]
      | some c => simp [isAllowed]

/-- Witness for `rateLimiter_fails_open`: with limit 5, a raised exception
still allows the request, and an available counter of 7 rejects it. -/
theorem rateLimiter_fails_open_witness :
    (isAllowed 5 60 0 .exc).1 = true ∧
    (isAllowed 5 60 0 (.ok (some 7))).1 = false :=
  ⟨(rateLimiter_fails_open 5 60 0 .exc).1 (Or.inl rfl),
    (rateLimiter_fails_open 5 60 0 (.ok (some 7))).2.mpr ⟨7, rfl, by norm_num⟩⟩

/-! ## Claim theorems: risk level -/

/-- C10: `_get_risk_level` is monotone under LOW < MEDIUM < HIGH < CRITICAL,
with boundaries 0.6, 0.8, 0.9 each mapping to the higher level. -/
theorem getRiskLevel_monotone (p q : ℚ) (hpq : p ≤ q) :
    riskRank (getRiskLevel p) ≤ riskRank (getRiskLevel q) ∧
    getRiskLevel (6 / 10) = .medium ∧
    getRiskLevel (8 / 10) = .high ∧
    getRiskLevel (9 / 10) = .critical := by
  refine ⟨?_, by norm_num [getRiskLevel, riskThreshold],
    by norm_num [getRiskLevel, riskThreshold],
    by norm_num [getRiskLevel, riskThreshold]⟩
  simp only [getRiskLevel, riskThreshold]
  split_ifs <;>
    first
      | (simp only [riskRank]; norm_num; done)
      | (simp only [riskRank]; done)
      | (exfalso; push_neg at *; linarith)

/-- Witness for `getRiskLevel_monotone` at `p = 1/2`, `q = 17/20`. -/
theorem getRiskLevel_monotone_witness :
    (1 : ℚ) / 2 ≤ 17 / 20 ∧
    riskRank (getRiskLevel (1 / 2)) ≤ riskRank (getRiskLevel (17 / 20)) :=
  ⟨by norm_num, (getRiskLevel_monotone ((1 : ℚ) / 2) (17 / 20) (by norm_num)).1⟩

/-! ## Claim theorems: triage cache key -/

/-- C7: the triage cache key depends only on `title`, `description` and
`customer_tier` — any two requests agreeing on those three fields get the
same key, for any digest function. -/
theorem generateCacheKey_content_only (md5hex : String → String)
    (r₁ r₂ : TicketTriageRequest)
    (ht : r₁.title = r₂.title) (hd : r₁.description = r₂.description)
    (hc : r₁.customer_tier = r₂.customer_tier) :
    generateCacheKey md5hex r₁ = generateCacheKey md5hex r₂ := by
  simp [generateCacheKey, cacheKeyContent, ht, hd, hc]

/-- Witness for `generateCacheKey_content_only`: two requests differing in
`ticket_id` and `customer_id` but agreeing on content get the same key. -/
theorem generateCacheKey_content_only_witness :
    generateCacheKey id
        ⟨"T-1", "printer down", "the office printer is down", "cust-1",
          some "premium", none, [], [], [], none⟩
      = generateCacheKey id
        ⟨"T-2", "printer down", "the office printer is down", "cust-2",
          some "premium", some "bob", [], [], [], none⟩ :=
  generateCacheKey_content_only id _ _ rfl rfl rfl

/-! ## Helper lemmas on triage confidence -/

theorem calculateKeywordConfidence_nonneg (req : TicketTriageRequest)
    (c : String) : 0 ≤ calculateKeywordConfidence req c := by
  simp only [calculateKeywordConfidence]
  split_ifs with h
  · exact le_refl 0
  · refine le_min (by norm_num) ?_
    exact mul_nonneg (div_nonneg (Nat.cast_nonneg _) (Nat.cast_nonneg _))
      (by norm_num)

theorem validateUrgencyImpact_confidence (d : ClassificationDict) :
    (validateUrgencyImpact d).confidence_score = d.confidence_score := by
  simp only [validateUrgencyImpact]
  split_ifs <;> rfl

theorem applyAgeEscalation_confidence (req : TicketTriageRequest)
    (utcnow : ℚ) (d : ClassificationDict) :
    (applyAgeEscalation req utcnow d).confidence_score = d.confidence_score := by
  unfold applyAgeEscalation
  cases req.created_at with
  | none => rfl
  | some created =>
      dsimp only
      split_ifs <;> rfl

theorem validateCategory_confidence_nonneg (d : ClassificationDict)
    (h : 0 ≤ d.confidence_score) :
    0 ≤ (validateCategory d).confidence_score := by
  unfold validateCategory
  split_ifs
  · exact h
  · exact mul_nonneg h (by norm_num)

theorem applyKeywordBoost_confidence (req : TicketTriageRequest)
    (d : ClassificationDict) :
    (applyKeywordBoost req d).confidence_score
      = min (95 / 100) (d.confidence_score + calculateKeywordConfidence req d.category) :=
  rfl

theorem foldlMax_mem (xs : List (String × ℚ)) :
    ∀ a : String × ℚ,
      xs.foldl (fun best y => if best.2 < y.2 then y else best) a ∈ a :: xs := by
  induction xs with
  | nil => intro a; simp
  | cons y ys ih =>
      intro a
      simp only [List.foldl_cons]
      rcases List.mem_cons.mp (ih (if a.2 < y.2 then y else a)) with h' | h'
      · rw [h']
        split_ifs <;> simp
      · simp [h']

theorem maxByScore_mem (l : List (String × ℚ)) (x : String × ℚ)
    (h : maxByScore l = some x) : x ∈ l := by
  cases l with
  | nil => cases h
  | cons a xs =>
      have hx : xs.foldl (fun best y => if best.2 < y.2 then y else best) a = x := by
        simpa [maxByScore] using h
      rw [← hx]
      exact foldlMax_mem xs a

theorem fallbackCategoryScores_nonneg (req : TicketTriageRequest)
    (x : String × ℚ) (hx : x ∈ fallbackCategoryScores req) : 0 ≤ x.2 := by
  simp only [fallbackCategoryScores, List.mem_filterMap] at hx
  obtain ⟨p, _, hfx⟩ := hx
  split_ifs at hfx
  cases hfx
  exact div_nonneg (Nat.cast_nonneg _) (Nat.cast_nonneg _)

theorem fallbackCategoryConfidence_bounds (req : TicketTriageRequest) :
    0 ≤ (fallbackCategoryConfidence req).2 ∧
      (fallbackCategoryConfidence req).2 ≤ 8 / 10 := by
  unfold fallbackCategoryConfidence
  cases h : maxByScore (fallbackCategoryScores req) with
  | none => norm_num
  | some x =>
      obtain ⟨c, s⟩ := x
      have hs : 0 ≤ s :=
        fallbackCategoryScores_nonneg req (c, s) (maxByScore_mem _ _ h)
      constructor
      · exact le_min (by norm_num) (by linarith)
      · exact min_le_left _ _

theorem fallbackClassification_confidence (req : TicketTriageRequest) :
    (fallbackClassification req).confidence_score
      = (fallbackCategoryConfidence req).2 :=
  rfl

/-! ## Claim theorems: triage and SLA confidence/probability -/

/-- C3 counterexample: the AI-validated path does not enforce the lower
bound.  With a Gemini reply carrying `confidence_score = -1` and the valid
category `"other"` (which has no keywords, so the boost is 0), and a request
whose text matches nothing, `_validate_and_enhance_ai_result` returns
confidence −1, outside [0, 1]: `min(0.95, ·)` caps only from above. -/
theorem triage_ai_confidence_can_be_negative :
    (validateAndEnhance
        ⟨some "other", some "medium", some "medium", some (-1), some "m",
          some [], some 120⟩
        ⟨"T-1", "zzz", "qqq", "cust", none, none, [], [], [], none⟩
        0).confidence_score = -1 ∧
    ¬ (0 ≤ (validateAndEnhance
        ⟨some "other", some "medium", some "medium", some (-1), some "m",
          some [], some 120⟩
        ⟨"T-1", "zzz", "qqq", "cust", none, none, [], [], [], none⟩
        0).confidence_score) := by
  have h : (validateAndEnhance
      ⟨some "other", some "medium", some "medium", some (-1), some "m",
        some [], some 120⟩
      ⟨"T-1", "zzz", "qqq", "cust", none, none, [], [], [], none⟩
      0).confidence_score = -1 := by
    simp [validateAndEnhance, applyAgeEscalation, applyKeywordBoost,
      validateUrgencyImpact, validateCategory, applyDefaults,
      calculateKeywordConfidence, categoryKeywords, categoryKeywordTable,
      validCategories, validLevels, countMatches, min_def]
    norm_num
  exact ⟨h, by rw [h]; norm_num⟩

/-- C3 (amended): provided the Gemini-supplied confidence score (when
present) is nonnegative, the AI-validated path yields a confidence in
[0, 0.95] ⊆ [0, 1]; the rule-based fallback path always yields a
confidence in [0, 0.8] ⊆ [0, 1], equal to 0.3 when no keyword scores. -/
theorem triage_confidence_in_unit_interval (r : AIResultDict)
    (req : TicketTriageRequest) (utcnow : ℚ)
    (hc : ∀ c, r.confidence_score = some c → 0 ≤ c) :
    (0 ≤ (validateAndEnhance r req utcnow).confidence_score ∧
      (validateAndEnhance r req utcnow).confidence_score ≤ 95 / 100 ∧
      (validateAndEnhance r req utcnow).confidence_score ≤ 1) ∧
    (0 ≤ (fallbackClassification req).confidence_score ∧
      (fallbackClassification req).confidence_score ≤ 8 / 10 ∧
      (fallbackClassification req).confidence_score ≤ 1) ∧
    (fallbackCategoryScores req = [] →
      (fallbackClassification req).confidence_score = 3 / 10) := by
  have h0 : 0 ≤ (applyDefaults r).confidence_score := by
    unfold applyDefaults
    cases hr : r.confidence_score with
    | none => norm_num
    | some c => simpa [hr] using hc c hr
  have h1 : 0 ≤ (validateCategory (applyDefaults r)).confidence_score :=
    validateCategory_confidence_nonneg _ h0
  have h2 : 0 ≤ (validateUrgencyImpact (validateCategory (applyDefaults r))).confidence_score := by
    rw [validateUrgencyImpact_confidence]; exact h1
  have hconf : (validateAndEnhance r req utcnow).confidence_score
      = min (95 / 100)
          ((validateUrgencyImpact (validateCategory (applyDefaults r))).confidence_score
            + calculateKeywordConfidence req
                (validateUrgencyImpact (validateCategory (applyDefaults r))).category) := by
    unfold validateAndEnhance
    rw [applyAgeEscalation_confidence, applyKeywordBoost_confidence]
  refine ⟨⟨?_, ?_, ?_⟩, ⟨?_, ?_, ?_⟩, ?_⟩
  · rw [hconf]
    exact le_min (by norm_num)
      (add_nonneg h2 (calculateKeywordConfidence_nonneg _ _))
  · rw [hconf]; exact min_le_left _ _
  · rw [hconf]
    exact le_trans (min_le_left _ _) (by norm_num)
  · rw [fallbackClassification_confidence]
    exact (fallbackCategoryConfidence_bounds req).1
  · rw [fallbackClassification_confidence]
    exact (fallbackCategoryConfidence_bounds req).2
  · rw [fallbackClassification_confidence]
    exact le_trans (fallbackCategoryConfidence_bounds req).2 (by norm_num)
  · intro hempty
    rw [fallbackClassification_confidence]
    simp [fallbackCategoryConfidence, hempty, maxByScore]

/-- Witness for `triage_confidence_in_unit_interval` at a raw AI result
with confidence 0.9 (nonnegative) and a concrete request. -/
theorem triage_confidence_in_unit_interval_witness :
    (∀ c : ℚ, (some (9 / 10 : ℚ)) = some c → 0 ≤ c) ∧
    0 ≤ (validateAndEnhance
        ⟨some "hardware", some "high", some "high", some (9 / 10), some "m",
          some [], some 60⟩
        ⟨"T-9", "laptop broken", "the laptop will not boot", "cust", none,
          none, [], [], [], none⟩
        0).confidence_score := by
  have hc : ∀ c : ℚ, (some (9 / 10 : ℚ)) = some c → 0 ≤ c := by
    rintro c hc
    cases hc
    norm_num
  exact ⟨hc,
    (triage_confidence_in_unit_interval
      ⟨some "hardware", some "high", some "high", some (9 / 10), some "m",
        some [], some 60⟩
      ⟨"T-9", "laptop broken", "the laptop will not boot", "cust", none,
        none, [], [], [], none⟩
      0 hc).1.1⟩

/-- C2: whenever the `/ai/triage` endpoint's `try` block raises (a
`ValueError` or any other exception), the endpoint propagates nothing: it
returns either a success response carrying exactly the keyword-based
emergency-fallback classification, or a response with `success = false`
and an error message — no third outcome. -/
theorem triageEndpoint_exception_outcomes {ρ : Type} (req : TicketTriageRequest)
    (body : TriageBodyOutcome ρ) (fallbackRaises : Bool) (pt : ℤ)
    (h : (∃ msg, body = .valueError msg) ∨ body = .exc) :
    ((triageEndpoint req body fallbackRaises pt).success = true ∧
      (triageEndpoint req body fallbackRaises pt).result
        = some (.inr (emergencyTriageFallback req))) ∨
    ((triageEndpoint req body fallbackRaises pt).success = false ∧
      ((triageEndpoint req body fallbackRaises pt).error).isSome) := by
  rcases h with ⟨msg, rfl⟩ | rfl
  · right
    simp [triageEndpoint]
  · cases fallbackRaises with
    | false =>
        left
        simp [triageEndpoint]
    | true =>
        right
        simp [triageEndpoint]

/-- Witness for `triageEndpoint_exception_outcomes`: a generic exception
with the fallback succeeding yields the emergency classification. -/
theorem triageEndpoint_exception_outcomes_witness :
    ((∃ msg, (TriageBodyOutcome.exc : TriageBodyOutcome Unit) = .valueError msg) ∨
      (TriageBodyOutcome.exc : TriageBodyOutcome Unit) = .exc) ∧
    (((triageEndpoint ⟨"T-1", "server down", "the server is down", "c", none,
          none, [], [], [], none⟩
        (TriageBodyOutcome.exc : TriageBodyOutcome Unit) false 5).success = true ∧
      (triageEndpoint ⟨"T-1", "server down", "the server is down", "c", none,
          none, [], [], [], none⟩
        (TriageBodyOutcome.exc : TriageBodyOutcome Unit) false 5).result
        = some (.inr (emergencyTriageFallback
            ⟨"T-1", "server down", "the server is down", "c", none,
              none, [], [], [], none⟩))) ∨
    (((triageEndpoint ⟨"T-1", "server down", "the server is down", "c", none,
          none, [], [], [], none⟩
        (TriageBodyOutcome.exc : TriageBodyOutcome Unit) false 5).success = false ∧
      ((triageEndpoint ⟨"T-1", "server down", "the server is down", "c", none,
          none, [], [], [], none⟩
        (TriageBodyOutcome.exc : TriageBodyOutcome Unit) false 5).error).isSome))) :=
  ⟨Or.inr rfl,
    triageEndpoint_exception_outcomes _ _ false 5 (Or.inr rfl)⟩

/-- C4: `predict_sla_breach` always returns a breach probability in
[0, 1]: the ML and rule-based paths clip into [0, 1] (for any modelling of
`** 1.5` and any raw regressor output), and the internal-error path
returns the constant 0.7. -/
theorem breachProbability_in_unit_interval (pow15 : ℚ → ℚ)
    (req : SLAPredictionRequestM) (outcome : SLAPredictOutcome) :
    (0 ≤ predictBreachProbability pow15 req outcome ∧
      predictBreachProbability pow15 req outcome ≤ 1) ∧
    predictBreachProbability pow15 req .topError = 7 / 10 := by
  refine ⟨?_, rfl⟩
  cases outcome with
  | untrained =>
      simp only [predictBreachProbability, ruleBasedPrediction]
      exact ⟨le_max_left _ _, max_le (by norm_num) (min_le_left _ _)⟩
  | trained raw =>
      cases raw with
      | none =>
          simp only [predictBreachProbability, mlPrediction]
          norm_num
      | some p =>
          simp only [predictBreachProbability, mlPrediction]
          exact ⟨le_max_left _ _, max_le (by norm_num) (min_le_left _ _)⟩
  | topError => norm_num [predictBreachProbability]

/-- C5: when the AI/ML backend is unavailable — Gemini returns nothing or
raises for triage; the SLA model is untrained or absent — the services
still produce a result, computed exactly by the keyword-based
(`_fallback_classification`) or rule-based (`_rule_based_prediction`)
fallback. -/
theorem ai_unavailable_falls_back (g : GeminiOutcome)
    (req : TicketTriageRequest) (utcnow : ℚ) (pow15 : ℚ → ℚ)
    (sreq : SLAPredictionRequestM)
    (hg : g = .ok none ∨ g = .exc) :
    classifyWithAI g req utcnow = fallbackClassification req ∧
    predictBreachProbability pow15 sreq .untrained
      = (ruleBasedPrediction pow15 sreq).1 := by
  refine ⟨?_, rfl⟩
  rcases hg with rfl | rfl <;> rfl

/-- Witness for `ai_unavailable_falls_back`: a raised Gemini call on a
concrete request is classified by the rule-based fallback. -/
theorem ai_unavailable_falls_back_witness :
    ((GeminiOutcome.exc = .ok none) ∨ (GeminiOutcome.exc = .exc)) ∧
    classifyWithAI .exc
        ⟨"T-1", "wifi broken", "the wifi is not working", "c", none, none,
          [], [], [], none⟩ 0
      = fallbackClassification
        ⟨"T-1", "wifi broken", "the wifi is not working", "c", none, none,
          [], [], [], none⟩ :=
  ⟨Or.inr rfl,
    (ai_unavailable_falls_back .exc
      ⟨"T-1", "wifi broken", "the wifi is not working", "c", none, none,
        [], [], [], none⟩ 0 id
      ⟨"S-1", .medium, .in_progress, 0, 3600, 1800, none, none⟩
      (Or.inr rfl)).1⟩

/-! ## Helper lemmas on the workload optimizer -/

theorem foldl_findBestStep_mem (w : OptimizationWeights)
    (tw : List (String × ℚ)) (ticket : TicketProfile)
    (l : List TechnicianProfile) :
    ∀ (st : Option TechnicianProfile × ℚ × List AltCandidate)
      (bt : TechnicianProfile),
      (l.foldl (findBestStep w tw ticket) st).1 = some bt →
      st.1 = some bt ∨ bt ∈ l := by
  induction l with
  | nil => intro st bt h; exact Or.inl h
  | cons tech rest ih =>
      intro st bt h
      rcases ih (findBestStep w tw ticket st tech) bt h with h' | h'
      · simp only [findBestStep] at h'
        split_ifs at h'
        · cases h'
          exact Or.inr (List.mem_cons_self _ _)
        · exact Or.inl h'
        · exact Or.inl h'
      · exact Or.inr (List.mem_cons_of_mem _ h')

theorem findBestTechnician_spec (w : OptimizationWeights) (now : ℚ)
    (ticket : TicketProfile) (techs : List TechnicianProfile)
    (asgn : List AssignmentRecommendation) (a : AssignmentRecommendation)
    (h : findBestTechnician w now ticket techs asgn = some a) :
    a.ticket_id = ticket.ticket_id ∧
    a.technician_id ∈ techs.map TechnicianProfile.technician_id := by
  simp only [findBestTechnician] at h
  rcases hbt : (techs.foldl (findBestStep w (accumWorkloads asgn) ticket)
      (none, -1, [])).1 with _ | bt
  · rw [hbt] at h
    cases h
  · rw [hbt] at h
    have hmem : bt ∈ techs := by
      rcases foldl_findBestStep_mem w (accumWorkloads asgn) ticket techs
        (none, -1, []) bt hbt with h' | h'
      · cases h'
      · exact h'
    cases h
    exact ⟨rfl, List.mem_map.mpr ⟨bt, hmem, rfl⟩⟩

theorem assignFold_spec (w : OptimizationWeights) (now : ℚ)
    (techs : List TechnicianProfile) (l : List TicketProfile) :
    ∀ acc : List AssignmentRecommendation,
      (∃ s, (l.foldl (assignStep w now techs) acc).map
            AssignmentRecommendation.ticket_id
          = acc.map AssignmentRecommendation.ticket_id ++ s
        ∧ List.Sublist s (l.map TicketProfile.ticket_id)) ∧
      (∀ a ∈ l.foldl (assignStep w now techs) acc,
        a ∈ acc ∨ ∃ t ∈ l, ∃ acc',
          findBestTechnician w now t techs acc' = some a) := by
  induction l with
  | nil =>
      intro acc
      exact ⟨⟨[], by simp, List.Sublist.refl _⟩, fun a ha => Or.inl ha⟩
  | cons t rest ih =>
      intro acc
      rcases hfb : findBestTechnician w now t techs acc with _ | a₀
      · have hstep : assignStep w now techs acc t = acc := by
          simp [assignStep, hfb]
        constructor
        · obtain ⟨s, hs, hsub⟩ := (ih (assignStep w now techs acc t)).1
          refine ⟨s, ?_, ?_⟩
          · simpa [hstep] using hs
          · exact hsub.trans (List.sublist_cons_self _ _)
        · intro a ha
          rcases (ih (assignStep w now techs acc t)).2 a
              (by simpa using ha) with h' | ⟨t', ht', acc', hfb'⟩
          · rw [hstep] at h'
            exact Or.inl h'
          · exact Or.inr ⟨t', List.mem_cons_of_mem _ ht', acc', hfb'⟩
      · have hstep : assignStep w now techs acc t = acc ++ [a₀] := by
          simp [assignStep, hfb]
        have htid : a₀.ticket_id = t.ticket_id :=
          (findBestTechnician_spec w now t techs acc a₀ hfb).1
        constructor
        · obtain ⟨s, hs, hsub⟩ := (ih (assignStep w now techs acc t)).1
          refine ⟨a₀.ticket_id :: s, ?_, ?_⟩
          · rw [List.foldl_cons, hs, hstep]
            simp
          · rw [htid]
            simpa using List.Sublist.cons₂ t.ticket_id hsub
        · intro a ha
          rcases (ih (assignStep w now techs acc t)).2 a
              (by simpa using ha) with h' | ⟨t', ht', acc', hfb'⟩
          · rw [hstep] at h'
            rcases List.mem_append.mp h' with h'' | h''
            · exact Or.inl h''
            · have : a = a₀ := by simpa using h''
              exact Or.inr ⟨t, List.mem_cons_self _ _, acc, this ▸ hfb⟩
          · exact Or.inr ⟨t', List.mem_cons_of_mem _ ht', acc', hfb'⟩

theorem multiObjective_map_tid (initial : List AssignmentRecommendation) :
    (multiObjectiveOptimization initial).map OptimizedAssignment.ticket_id
      = initial.map AssignmentRecommendation.ticket_id := by
  simp [multiObjectiveOptimization, List.map_map]

theorem multiObjective_mem (initial : List AssignmentRecommendation)
    (a' : OptimizedAssignment) (h : a' ∈ multiObjectiveOptimization initial) :
    ∃ a ∈ initial, a'.ticket_id = a.ticket_id
      ∧ a'.technician_id = a.technician_id := by
  simp only [multiObjectiveOptimization, List.mem_map] at h
  obtain ⟨a, ha, rfl⟩ := h
  exact ⟨a, ha, rfl, rfl⟩

/-! ## Claim theorem: workload optimizer -/

/-- C6: every assignment returned by the optimizer pairs a `ticket_id`
drawn from the input pending tickets with a `technician_id` drawn from the
input technicians, and (when the input tickets carry distinct ids) no
`ticket_id` appears in more than one assignment. -/
theorem optimizeAssignments_assignments_valid (goals : List String) (now : ℚ)
    (techs : List TechnicianProfile) (tickets : List TicketProfile)
    (hnodup : (tickets.map TicketProfile.ticket_id).Nodup) :
    (∀ a ∈ optimizeAssignments goals now techs tickets,
       a.ticket_id ∈ tickets.map TicketProfile.ticket_id ∧
       a.technician_id ∈ techs.map TechnicianProfile.technician_id) ∧
    ((optimizeAssignments goals now techs tickets).map
      OptimizedAssignment.ticket_id).Nodup := by
  have hperm : List.Perm (tickets.mergeSort (ticketSortLE now)) tickets :=
    List.mergeSort_perm tickets (ticketSortLE now)
  obtain ⟨⟨s, hs, hsub⟩, hmem⟩ :=
    assignFold_spec (updateOptimizationWeights goals) now techs
      (tickets.mergeSort (ticketSortLE now)) []
  constructor
  · intro a' ha'
    obtain ⟨a, ha, htid, htech⟩ := multiObjective_mem _ a' ha'
    rcases hmem a ha with h' | ⟨t, ht, acc', hfb⟩
    · cases h'
    · obtain ⟨h1, h2⟩ := findBestTechnician_spec _ now t techs acc' a hfb
      constructor
      · rw [htid, h1]
        exact List.mem_map.mpr ⟨t, hperm.subset ht, rfl⟩
      · rw [htech]
        exact h2
  · unfold optimizeAssignments
    rw [multiObjective_map_tid]
    unfold generateInitialAssignments
    have hnodup' : ((tickets.mergeSort (ticketSortLE now)).map
        TicketProfile.ticket_id).Nodup :=
      ((hperm.map TicketProfile.ticket_id).nodup_iff).mpr hnodup
    rw [hs]
    simpa using hnodup'.sublist hsub

/-- Witness for `optimizeAssignments_assignments_valid`: one technician,
one ticket. -/
theorem optimizeAssignments_assignments_valid_witness :
    ((([⟨"T-1", "printer down", "printer", "high", ["printer_support"], 5,
        120, 86400, "standard", 1, false, false⟩] : List TicketProfile).map
      TicketProfile.ticket_id).Nodup) ∧
    ((optimizeAssignments [] 0
        [⟨"tech-1", "Ann", ["printer_support"], [("printer_support", 7)],
          10, 40, 6, 4, 8, ["printer"], 3 / 10, [], 7 / 10, "stable"⟩]
        [⟨"T-1", "printer down", "printer", "high", ["printer_support"], 5,
          120, 86400, "standard", 1, false, false⟩]).map
      OptimizedAssignment.ticket_id).Nodup :=
  ⟨by simp,
    (optimizeAssignments_assignments_valid [] 0
      [⟨"tech-1", "Ann", ["printer_support"], [("printer_support", 7)],
        10, 40, 6, 4, 8, ["printer"], 3 / 10, [], 7 / 10, "stable"⟩]
      [⟨"T-1", "printer down", "printer", "high", ["printer_support"], 5,
        120, 86400, "standard", 1, false, false⟩]
      (by simp)).2⟩

end TicketMgmt
